import Mathlib

/-!
Verification of the permission-reporter script (src/tools/perm-mask/test-perm-mask.py).

The script holds a fixed list of paths, stats each one, decodes the nine
POSIX permission bits of the file mode into three rwx strings via a fixed
8-entry lookup table, and prints a report per path; a missing file yields a
single "File not found" line and any other stat failure yields a single
"Error processing file" line.  The shallow embedding below mirrors the
Python source: the lookup table, Python list indexing (including negative
indices and the IndexError case), the three mask extractions, the per-path
report with its two exception handlers, and the top-level loop driven by an
abstract stat oracle.
-/

/-- The fixed 8-entry lookup table `permissions` from the source. -/
def permissions : List String :=
  ["---", "--x", "-w-", "-wx", "r--", "r-x", "rw-", "rwx"]

/-- Python list indexing semantics: a non-negative index reads from the
front, a negative index `i` reads entry `i + len` when `-len ≤ i < 0`, and
any other index raises IndexError (modelled as `none`). -/
def pyListGet (l : List String) (i : Int) : Option String :=
  if 0 ≤ i then l.get? i.toNat
  else if 0 ≤ i + l.length then l.get? (i + l.length).toNat
  else none

/-- `permission_mask_to_string(mask)` from the source: `permissions[mask]`
under Python indexing semantics, `none` when the access raises IndexError. -/
def permission_mask_to_string (mask : Int) : Option String :=
  pyListGet permissions mask

/-- `user_permissions = (file_mode & 0o700) >> 6` from the source. -/
def user_permissions (file_mode : Nat) : Nat :=
  (file_mode &&& 0o700) >>> 6

/-- `group_permissions = (file_mode & 0o070) >> 3` from the source. -/
def group_permissions (file_mode : Nat) : Nat :=
  (file_mode &&& 0o070) >>> 3

/-- `other_permissions = file_mode & 0o007` from the source. -/
def other_permissions (file_mode : Nat) : Nat :=
  file_mode &&& 0o007

/-- Outcome of the `os.stat(path).st_mode` metadata query: success with a
mode, `FileNotFoundError`, or any other exception carrying its message. -/
inductive StatOutcome : Type
  | ok (st_mode : Nat)
  | fileNotFound
  | err (msg : String)
deriving DecidableEq

/-- One iteration of the loop body: the lines printed for one path.  On a
successful stat the four report lines are printed; `FileNotFoundError` is
caught and prints one line; any other exception (including an IndexError
escaping the table lookup, which never happens in range) is caught by the
broad handler and prints one line. -/
def report (stat : String → StatOutcome) (path : String) : List String :=
  match stat path with
  | .ok file_mode =>
    let u := user_permissions file_mode
    let g := group_permissions file_mode
    let o := other_permissions file_mode
    match permission_mask_to_string u, permission_mask_to_string g,
        permission_mask_to_string o with
    | some us, some gs, some os =>
      ["File: " ++ path,
       "  User permissions:  " ++ us,
       "  Group permissions: " ++ gs,
       "  Other permissions: " ++ os]
    | _, _, _ =>
      ["Error processing file " ++ path ++ ": list index out of range"]
  | .fileNotFound => ["File not found: " ++ path]
  | .err e => ["Error processing file " ++ path ++ ": " ++ e]

/-- The hard-coded `file_path` list from the source. -/
def file_path : List String :=
  ["D:\\gem\\YaeAchievement.exe",
   "D:\\gem\\Genshin Impact game\\GenshinImpact_Data\\Persistent\\AssetBundles\\blocks\\15\\34980066.blk",
   "D:\\gem\\Snap Hutao UIGF.json"]

/-- The top-level driver `for path in file_path: ...`: process the paths in
order, concatenating the lines each iteration prints; every iteration runs
regardless of earlier outcomes. -/
def runReporter (stat : String → StatOutcome) : List String → List String
  | [] => []
  | p :: ps => report stat p ++ runReporter stat ps

/-- Specification-side rendering of a 3-bit mask: one letter per bit from
most significant (read) to least significant (execute). -/
def rwxOfBits (m : Nat) : String :=
  (if m.testBit 2 then "r" else "-") ++
  (if m.testBit 1 then "w" else "-") ++
  (if m.testBit 0 then "x" else "-")

/-- Claim C1: for every integer m in 0..7, `permission_mask_to_string m`
returns exactly the three-character string determined bitwise by m (bit 2 =
read, bit 1 = write, bit 0 = execute), and that string is one of the eight
table entries. -/
theorem c1_mask_to_string_bits (m : Int) (h0 : 0 ≤ m) (h7 : m ≤ 7) :
    permission_mask_to_string m = some (rwxOfBits m.toNat) ∧
    rwxOfBits m.toNat ∈ permissions := by
  interval_cases m <;> exact ⟨rfl, by decide⟩

/-- Witness for C1 at m = 5. -/
theorem c1_mask_to_string_bits_witness :
    permission_mask_to_string 5 = some (rwxOfBits (Int.toNat 5)) ∧
    rwxOfBits (Int.toNat 5) ∈ permissions :=
  c1_mask_to_string_bits 5 (by decide) (by decide)

/-- Claim C2 counterexample: calling `permission_mask_to_string` at -1,
which is outside 0..7, silently returns the table entry "rwx" because
Python lists accept negative indices; the claimed loud failure does not
happen. -/
theorem c2_counterexample :
    permission_mask_to_string (-1) = some "rwx" ∧ "rwx" ∈ permissions := by
  constructor <;> decide

/-- Claim C2 (amended): out-of-range calls fail loudly only beyond Python's
negative-index window: for every integer m with m ≥ 8 or m ≤ -9 the lookup
raises IndexError (modelled as `none`), while for -8 ≤ m ≤ -1 it silently
returns the table entry for m + 8. -/
theorem c2_out_of_range_behavior (m : Int) :
    (8 ≤ m ∨ m ≤ -9 → permission_mask_to_string m = none) ∧
    (-8 ≤ m → m ≤ -1 →
      permission_mask_to_string m = some (rwxOfBits (m + 8).toNat)) := by
  constructor
  · rintro (h | h)
    · have : (8 : Nat) ≤ m.toNat := by omega
      simp only [permission_mask_to_string, pyListGet, if_pos (by omega : 0 ≤ m)]
      exact List.get?_eq_none.mpr (by simpa [permissions] using this)
    · have h1 : ¬ (0 : Int) ≤ m := by omega
      have hlen : (permissions.length : Int) = 8 := by decide
      have h2 : ¬ (0 : Int) ≤ m + permissions.length := by omega
      simp [permission_mask_to_string, pyListGet, h1, h2]
  · intro h1 h2
    interval_cases m <;> exact rfl

/-- Witness for C2 (amended) at m = -3: the lookup silently yields the
entry for 5, and at 9 it fails. -/
theorem c2_out_of_range_behavior_witness :
    permission_mask_to_string (-3) = some (rwxOfBits (Int.toNat (-3 + 8))) ∧
    permission_mask_to_string 9 = none :=
  ⟨(c2_out_of_range_behavior (-3)).2 (by decide) (by decide),
   (c2_out_of_range_behavior 9).1 (Or.inl (by decide))⟩

/-- Bits 6..8 of the mask 0o700: bit 6+i is set exactly when i < 3. -/
theorem testBit_448 (i : Nat) : (448 : Nat).testBit (6 + i) = decide (i < 3) := by
  by_cases h : i < 3
  · interval_cases i <;> decide
  · have hlt : (448 : Nat) < 2 ^ (6 + i) :=
      lt_of_lt_of_le (by norm_num : (448 : Nat) < 2 ^ 9)
        (Nat.pow_le_pow_right (by norm_num) (by omega))
    rw [Nat.testBit_lt_two_pow hlt]
    simp [h]

/-- Bits 3..5 of the mask 0o070: bit 3+i is set exactly when i < 3. -/
theorem testBit_56 (i : Nat) : (56 : Nat).testBit (3 + i) = decide (i < 3) := by
  by_cases h : i < 3
  · interval_cases i <;> decide
  · have hlt : (56 : Nat) < 2 ^ (3 + i) :=
      lt_of_lt_of_le (by norm_num : (56 : Nat) < 2 ^ 6)
        (Nat.pow_le_pow_right (by norm_num) (by omega))
    rw [Nat.testBit_lt_two_pow hlt]
    simp [h]

/-- The owner extraction is the value of bits 6..8 of the mode. -/
theorem user_permissions_eq_div_mod (n : Nat) : user_permissions n = n / 64 % 8 := by
  apply Nat.eq_of_testBit_eq
  intro i
  rw [show (8 : Nat) = 2 ^ 3 by norm_num, show (64 : Nat) = 2 ^ 6 by norm_num,
    show n / 2 ^ 6 = n >>> 6 from (Nat.shiftRight_eq_div_pow n 6).symm]
  simp only [user_permissions, Nat.testBit_shiftRight, Nat.testBit_and,
    Nat.testBit_mod_two_pow]
  rw [testBit_448]
  exact Bool.and_comm _ _

/-- The group extraction is the value of bits 3..5 of the mode. -/
theorem group_permissions_eq_div_mod (n : Nat) : group_permissions n = n / 8 % 8 := by
  apply Nat.eq_of_testBit_eq
  intro i
  rw [show (8 : Nat) = 2 ^ 3 by norm_num,
    show n / 2 ^ 3 = n >>> 3 from (Nat.shiftRight_eq_div_pow n 3).symm]
  simp only [group_permissions, Nat.testBit_shiftRight, Nat.testBit_and,
    Nat.testBit_mod_two_pow]
  rw [testBit_56]
  exact Bool.and_comm _ _

/-- The other extraction is the value of bits 0..2 of the mode. -/
theorem other_permissions_eq_mod (n : Nat) : other_permissions n = n % 8 := by
  apply Nat.eq_of_testBit_eq
  intro i
  rw [show (8 : Nat) = 2 ^ 3 by norm_num]
  simp only [other_permissions, Nat.testBit_and, Nat.testBit_mod_two_pow,
    show (7 : Nat) = 2 ^ 3 - 1 by norm_num, Nat.testBit_two_pow_sub_one]
  exact Bool.and_comm _ _

/-- Masking with 0o777 keeps exactly the low nine bits. -/
theorem and_511_eq_mod (n : Nat) : n &&& 511 = n % 512 := by
  apply Nat.eq_of_testBit_eq
  intro i
  rw [show (512 : Nat) = 2 ^ 9 by norm_num]
  simp only [Nat.testBit_and, Nat.testBit_mod_two_pow,
    show (511 : Nat) = 2 ^ 9 - 1 by norm_num, Nat.testBit_two_pow_sub_one]
  exact Bool.and_comm _ _

/-- Claim C3: for every file mode, the three extracted triples are exactly
the fixed bit fields: owner is bits 6..8, group is bits 3..5, other is bits
0..2 of the mode. -/
theorem c3_triples_are_bitfields (file_mode : Nat) :
    user_permissions file_mode = file_mode / 2 ^ 6 % 2 ^ 3 ∧
    group_permissions file_mode = file_mode / 2 ^ 3 % 2 ^ 3 ∧
    other_permissions file_mode = file_mode % 2 ^ 3 := by
  refine ⟨?_, ?_, ?_⟩
  · rw [user_permissions_eq_div_mod]; norm_num
  · rw [group_permissions_eq_div_mod]; norm_num
  · rw [other_permissions_eq_mod]; norm_num

/-- A table lookup at an in-range mask always succeeds. -/
theorem mask_lookup_isSome (n : Nat) (h : n ≤ 7) :
    (permission_mask_to_string n).isSome = true := by
  interval_cases n <;> decide

/-- Claim C4: for every non-negative file mode, each masked triple lies in
0..7, so the table lookup is in range and never fails. -/
theorem c4_triples_in_range (file_mode : Nat) :
    user_permissions file_mode ≤ 7 ∧
    group_permissions file_mode ≤ 7 ∧
    other_permissions file_mode ≤ 7 ∧
    (permission_mask_to_string (user_permissions file_mode)).isSome = true ∧
    (permission_mask_to_string (group_permissions file_mode)).isSome = true ∧
    (permission_mask_to_string (other_permissions file_mode)).isSome = true := by
  have hu : user_permissions file_mode ≤ 7 := by
    rw [user_permissions_eq_div_mod]; omega
  have hg : group_permissions file_mode ≤ 7 := by
    rw [group_permissions_eq_div_mod]; omega
  have ho : other_permissions file_mode ≤ 7 := by
    rw [other_permissions_eq_mod]; omega
  exact ⟨hu, hg, ho, mask_lookup_isSome _ hu, mask_lookup_isSome _ hg,
    mask_lookup_isSome _ ho⟩

/-- Claim C5: when the stat of a path succeeds with a mode whose owner bits
are 0b111, group bits 0b101 and other bits 0b100, the report prints the
header and then rwx, r-x and r-- on the three permission lines. -/
theorem c5_report_754 (stat : String → StatOutcome) (path : String)
    (mode : Nat) (hstat : stat path = .ok mode)
    (hu : user_permissions mode = 7) (hg : group_permissions mode = 5)
    (ho : other_permissions mode = 4) :
    report stat path =
      ["File: " ++ path,
       "  User permissions:  rwx",
       "  Group permissions: r-x",
       "  Other permissions: r--"] := by
  simp only [report, hstat, hu, hg, ho]
  rfl

/-- Witness for C5 with mode 0o754 = 492. -/
theorem c5_report_754_witness :
    report (fun _ => .ok 492) "p" =
      ["File: " ++ "p",
       "  User permissions:  rwx",
       "  Group permissions: r-x",
       "  Other permissions: r--"] :=
  c5_report_754 (fun _ => .ok 492) "p" 492 rfl (by decide) (by decide)
    (by decide)

/-- Claim C6: when the stat of a path signals not-found, the report is
exactly the one line "File not found: path", and the driver continues with
the remaining paths unchanged. -/
theorem c6_not_found (stat : String → StatOutcome) (path : String)
    (h : stat path = .fileNotFound) :
    report stat path = ["File not found: " ++ path] ∧
    ∀ rest, runReporter stat (path :: rest) =
      ("File not found: " ++ path) :: runReporter stat rest := by
  have h1 : report stat path = ["File not found: " ++ path] := by
    simp only [report, h]
  exact ⟨h1, fun rest => by simp only [runReporter, h1]; rfl⟩

/-- Witness for C6. -/
theorem c6_not_found_witness :
    report (fun _ => .fileNotFound) "q" = ["File not found: " ++ "q"] ∧
    ∀ rest, runReporter (fun _ => .fileNotFound) ("q" :: rest) =
      ("File not found: " ++ "q") :: runReporter (fun _ => .fileNotFound) rest :=
  c6_not_found (fun _ => .fileNotFound) "q" rfl

/-- Claim C7: when the stat of a path fails with any error other than
not-found, the report is exactly the one line "Error processing file path:
message", and the driver continues with the remaining paths unchanged. -/
theorem c7_other_error (stat : String → StatOutcome) (path msg : String)
    (h : stat path = .err msg) :
    report stat path = ["Error processing file " ++ path ++ ": " ++ msg] ∧
    ∀ rest, runReporter stat (path :: rest) =
      ("Error processing file " ++ path ++ ": " ++ msg) ::
        runReporter stat rest := by
  have h1 : report stat path =
      ["Error processing file " ++ path ++ ": " ++ msg] := by
    simp only [report, h]
  exact ⟨h1, fun rest => by simp only [runReporter, h1]; rfl⟩

/-- Witness for C7. -/
theorem c7_other_error_witness :
    report (fun _ => .err "Permission denied") "q" =
      ["Error processing file " ++ "q" ++ ": " ++ "Permission denied"] ∧
    ∀ rest, runReporter (fun _ => .err "Permission denied") ("q" :: rest) =
      ("Error processing file " ++ "q" ++ ": " ++ "Permission denied") ::
        runReporter (fun _ => .err "Permission denied") rest :=
  c7_other_error (fun _ => .err "Permission denied") "q" "Permission denied" rfl

/-- Claim C8: for any stat oracle, the driver's output is the concatenation
of one report per configured path, in the list's order, with exactly as
many reports as paths: no path is skipped, reordered or interleaved. -/
theorem c8_driver_per_path (stat : String → StatOutcome)
    (paths : List String) :
    runReporter stat paths = (paths.map (report stat)).flatten ∧
    (paths.map (report stat)).length = paths.length := by
  constructor
  · induction paths with
    | nil => rfl
    | cons p ps ih =>
      simp only [runReporter, List.map_cons, List.flatten_cons, ih]
  · simp

/-- The lines printed for a path depend on the stat oracle only through its
answer at that path. -/
theorem report_congr (stat₁ stat₂ : String → StatOutcome) (path : String)
    (h : stat₁ path = stat₂ path) : report stat₁ path = report stat₂ path := by
  unfold report
  rw [h]

/-- Claim C9: the reporter is deterministic: two runs over the same path
list in which the metadata query answers the same for every listed path
produce identical output. -/
theorem c9_deterministic (stat₁ stat₂ : String → StatOutcome)
    (paths : List String) (h : ∀ p ∈ paths, stat₁ p = stat₂ p) :
    runReporter stat₁ paths = runReporter stat₂ paths := by
  induction paths with
  | nil => rfl
  | cons p ps ih =>
    simp only [runReporter]
    rw [report_congr stat₁ stat₂ p (h p (List.mem_cons_self p ps)),
      ih fun q hq => h q (List.mem_cons_of_mem _ hq)]

/-- Witness for C9: two oracles that agree on the configured list (one of
them behaves differently on other paths) give identical runs. -/
theorem c9_deterministic_witness :
    (∀ p ∈ file_path, (fun _ => StatOutcome.fileNotFound) p =
      (fun q => if q = "" then StatOutcome.ok 0 else .fileNotFound) p) ∧
    runReporter (fun _ => StatOutcome.fileNotFound) file_path =
      runReporter (fun q => if q = "" then StatOutcome.ok 0 else .fileNotFound)
        file_path := by
  have h : ∀ p ∈ file_path, (fun _ => StatOutcome.fileNotFound) p =
      (fun q => if q = "" then StatOutcome.ok 0 else .fileNotFound) p := by
    decide
  exact ⟨h, c9_deterministic _ _ file_path h⟩

/-- Claim C10: a successful report depends only on the low nine bits of the
mode: two stats of the same path returning modes that agree on mode &&& 0o777
produce identical report lines. -/
theorem c10_low_nine_bits (stat₁ stat₂ : String → StatOutcome)
    (path : String) (mode₁ mode₂ : Nat)
    (h₁ : stat₁ path = .ok mode₁) (h₂ : stat₂ path = .ok mode₂)
    (h : mode₁ &&& 0o777 = mode₂ &&& 0o777) :
    report stat₁ path = report stat₂ path := by
  rw [and_511_eq_mod, and_511_eq_mod] at h
  have hu : user_permissions mode₁ = user_permissions mode₂ := by
    rw [user_permissions_eq_div_mod, user_permissions_eq_div_mod]; omega
  have hg : group_permissions mode₁ = group_permissions mode₂ := by
    rw [group_permissions_eq_div_mod, group_permissions_eq_div_mod]; omega
  have ho : other_permissions mode₁ = other_permissions mode₂ := by
    rw [other_permissions_eq_mod, other_permissions_eq_mod]; omega
  simp only [report, h₁, h₂, hu, hg, ho]

/-- Witness for C10: modes 0o754 and 0o100754 (a regular-file type bit
added) agree on the low nine bits and print the same report. -/
theorem c10_low_nine_bits_witness :
    report (fun _ => .ok 492) "p" = report (fun _ => .ok 33260) "p" :=
  c10_low_nine_bits (fun _ => .ok 492) (fun _ => .ok 33260) "p" 492 33260
    rfl rfl (by decide)
